import Mathlib

/-!
Shallow embedding of the data-join and display-value preparation pipeline of
the `dioik.maps` repository (files `Greek_Data_Maps.py` and
`greek.population.map.py`), together with theorems settling the frozen
claims about its specification.

Conventions of the embedding:
* Python floats are modelled as rationals (`ℚ`); the literal `1e-3` is the
  rational `1/1000`.
* A pandas missing value (`NaN`) in an optional string column is modelled as
  `Option.none`; `pd.to_numeric(..., errors="coerce")` output cells are
  modelled by `Cell`.
* Python exceptions are modelled by the error type `PyErr` threaded through
  `Except`.
-/

/-- Python exceptions relevant to the load paths of both scripts. -/
inductive PyErr where
  | indexError
  | keyError
  | fileNotFoundError (msg : String)
  | valueError (msg : String)
  deriving DecidableEq, Repr

/-- One token of a `str.format` template: literal text, a positional
replacement field `\x7b\x7d`, or a named replacement field `\x7bname\x7d`. -/
inductive Tok where
  | lit (s : String)
  | pos
  | field (name : String)
  deriving DecidableEq, Repr

/-- Scanner for `str.format` templates.  The boolean is true while inside a
replacement field; the buffer collects the (reversed) field name. -/
def parseToksAux : Bool → List Char → List Char → List Tok
  | false, _, [] => []
  | false, buf, c :: cs =>
      if c = '\x7b' then parseToksAux true [] cs
      else Tok.lit (String.mk [c]) :: parseToksAux false buf cs
  | true, _, [] => []
  | true, buf, c :: cs =>
      if c = '\x7d' then
        (if buf = [] then Tok.pos else Tok.field (String.mk buf.reverse)) ::
          parseToksAux false [] cs
      else parseToksAux true (c :: buf) cs

/-- Tokenize a `str.format` template string. -/
def parseTemplate (s : String) : List Tok :=
  parseToksAux false [] s.data

/-- Association-list lookup for keyword arguments. -/
def lookupKw : List (String × String) → String → Option String
  | [], _ => none
  | (k, v) :: t, n => if k = n then some v else lookupKw t n

/-- Interpreter for a tokenized `str.format` template.  A positional field
consumes the next positional argument (auto-numbering); running out of
positional arguments raises `IndexError`, exactly as CPython does for
`"\x7b\x7d".format(**kwargs)`.  A named field missing from the keyword
arguments raises `KeyError`. -/
def formatGo (args : List String) (kwargs : List (String × String)) :
    List Tok → Nat → String → Except PyErr String
  | [], _, acc => .ok acc
  | .lit s :: rest, i, acc => formatGo args kwargs rest i (acc ++ s)
  | .pos :: rest, i, acc =>
      match args.get? i with
      | some v => formatGo args kwargs rest (i + 1) (acc ++ v)
      | none => .error .indexError
  | .field n :: rest, i, acc =>
      match lookupKw kwargs n with
      | some v => formatGo args kwargs rest i (acc ++ v)
      | none => .error .keyError

/-- `template.format(*args, **kwargs)`. -/
def pyFormat (template : String) (args : List String)
    (kwargs : List (String × String)) : Except PyErr String :=
  formatGo args kwargs (parseTemplate template) 0 ""

/-- The message entries of the `translations` dictionary of
`Greek_Data_Maps.py` used on the load error/warning paths (other entries are
UI strings irrelevant to the claims).  Lookup of an unknown key yields `""`,
mirroring `translations[lang].get(key, "")`. -/
def translations (lang key : String) : String :=
  match lang, key with
  | "en", "error_loading_shapefile" => "❌ Error loading shapefile: \x7b\x7d"
  | "en", "error_loading_excel" => "❌ Error loading Excel data: \x7b\x7d"
  | "en", "no_excel_files" => "⚠️ No .xlsx files found in folder: \x7b\x7d"
  | "en", "failed_read_excel" => "⚠️ Failed to read \x7b\x7d: \x7b\x7d"
  | "el", "error_loading_shapefile" => "❌ Σφάλμα κατά τη φόρτωση του shapefile: \x7b\x7d"
  | "el", "error_loading_excel" => "❌ Σφάλμα κατά τη φόρτωση των δεδομένων Excel: \x7b\x7d"
  | "el", "no_excel_files" => "⚠️ Δεν βρέθηκαν αρχεία .xlsx στον φάκελο: \x7b\x7d"
  | "el", "failed_read_excel" => "⚠️ Αποτυχία ανάγνωσης του \x7b\x7d: \x7b\x7d"
  | _, _ => ""

/-- The message helper `tr` of `Greek_Data_Maps.py`: fetch the template for
the session language and, when keyword arguments are given, run
`text.format(**kwargs)` (no positional arguments are ever passed). -/
def tr (lang key : String) (kwargs : List (String × String)) :
    Except PyErr String :=
  match kwargs with
  | [] => .ok (translations lang key)
  | _ :: _ => pyFormat (translations lang key) [] kwargs

example : tr "en" "failed_read_excel" [("file", "a.xlsx"), ("error", "boom")]
    = .error .indexError := rfl

example : tr "en" "no_excel_files" [("folder_path", "output_nuts3_excels")]
    = .error .indexError := rfl

example : pyFormat "x=\x7ba\x7d" [] [("a", "1")] = .ok "x=1" := rfl

/-- A NUTS3 region row of the shapefile after load: the join key `NUTS_ID`
and the three name columns `NUTS_Level_1/2/3` (a pandas `NaN` is `none`). -/
structure Region where
  nuts_id : String
  l1 : Option String
  l2 : Option String
  l3 : Option String
  deriving DecidableEq, Repr

/-- One observation row of the combined Excel data after loading (the
`VALUE` column already coerced: `none` is `NaN`). -/
structure Obs where
  nuts_id : String
  year : Int
  sex : String
  age : String
  value : Option ℚ
  deriving DecidableEq, Repr

/-- One row of `merged_gdf`: the region columns together with the `VALUE`
column contributed by the matching observation (or `NaN`). -/
structure JRec where
  region : Region
  value : Option ℚ
  deriving DecidableEq, Repr

/-- Section "Filter Data" of both scripts: keep the observations equal to
the selected year, sex and age group. -/
def filterObs (obs : List Obs) (year : Int) (sex age : String) : List Obs :=
  obs.filter fun o => o.year == year && o.sex == sex && o.age == age

/-- `gdf_nuts3.merge(df_filtered, how="left", left_on=key, right_on=key)`:
each region row is paired with every filtered observation carrying the same
`NUTS_ID`; a region with no match yields a single row with `NaN` value. -/
def mergeLeft (regions : List Region) (obs : List Obs) : List JRec :=
  regions.flatMap fun r =>
    match obs.filter (fun o => o.nuts_id == r.nuts_id) with
    | [] => [⟨r, none⟩]
    | ms => ms.map fun o => ⟨r, o.value⟩

/-- `merged_gdf[VALUE_COL].dropna()`. -/
def presentValues (recs : List JRec) : List ℚ :=
  recs.filterMap JRec.value

/-- `vals.min() if len(vals) else 0`. -/
def pdMin : List ℚ → ℚ
  | [] => 0
  | v :: vs => vs.foldl min v

/-- `vals.max() if len(vals) else 1`. -/
def pdMax : List ℚ → ℚ
  | [] => 1
  | v :: vs => vs.foldl max v

/-- The "Expand color range if no variation" block of both scripts
(`1e-3` is `1/1000`): equal min and max are pushed apart by the fixed
epsilon; a nonzero but narrower-than-threshold range is re-centered at the
midpoint with half-width `1/2`; otherwise the range is returned as is. -/
def expandRange (m M : ℚ) : ℚ × ℚ :=
  if m = M then (m - 1/1000, M + 1/1000)
  else if M - m < 1/1000 then ((m + M) / 2 - 1/2, (m + M) / 2 + 1/2)
  else (m, M)

/-- `(val_min, val_max)` as computed from `merged_gdf` by both scripts. -/
def valueRange (recs : List JRec) : ℚ × ℚ :=
  expandRange (pdMin (presentValues recs)) (pdMax (presentValues recs))

/-- End-to-end value range for a selection: filter, left-join, derive. -/
def pipelineRange (regions : List Region) (obs : List Obs) (year : Int)
    (sex age : String) : ℚ × ℚ :=
  valueRange (mergeLeft regions (filterObs obs year sex age))

example :
    pipelineRange [⟨"EL301", some "Attica", none, none⟩]
      [⟨"EL301", 2020, "T", "Y_LT5", some 1000⟩] 2020 "T" "Y_LT5"
    = (1000 - 1/1000, 1000 + 1/1000) := by
  simp [pipelineRange, valueRange, presentValues, mergeLeft, filterObs,
    pdMin, pdMax]
  norm_num [expandRange]

example : expandRange 42 42 = (42 - 1/1000, 42 + 1/1000) := by
  norm_num [expandRange]

example : expandRange 0 (1/2000) = (1/4000 - 1/2, 1/4000 + 1/2) := by
  norm_num [expandRange]

/-- `str(x)` applied to a cell of an optional string column: pandas renders
a missing value (`NaN`) as the literal string `"nan"`. -/
def pyStr : Option String → String
  | none => "nan"
  | some s => s

/-- Python's `str.strip()`: drop whitespace from both ends. -/
def pyStrip (s : String) : String :=
  String.mk
    (((s.data.dropWhile Char.isWhitespace).reverse.dropWhile
        Char.isWhitespace).reverse)

/-- Order-preserving first-seen deduplication (the `used` loop of both
label helpers). -/
def dedupKeep (seen : List String) : List String → List String
  | [] => []
  | x :: xs =>
      if seen.contains x then dedupKeep seen xs
      else x :: dedupKeep (seen ++ [x]) xs

/-- The deduplicated fragment list shared by both label helpers: the three
name columns rendered with `str(...).strip()`, with falsy (empty) entries
removed.  The source also tests `pd.notna(x)`, but `x` is already a string
there, so that test is always true and removes nothing. -/
def labelFragments (r : Region) : List String :=
  let items := [pyStrip (pyStr r.l1), pyStrip (pyStr r.l2), pyStrip (pyStr r.l3)]
  dedupKeep [] (items.filter fun x => x ≠ "")

/-- `combine_nuts_names` of `greek.population.map.py`. -/
def combine_nuts_names (r : Region) : String :=
  String.intercalate " - " (labelFragments r)

/-- `combine_nuts_names_with_code` of `Greek_Data_Maps.py`: same fragments,
then the `NUTS_ID` appended in parentheses when it is truthy and not `NaN`
(the key column of the left side is a non-missing string here, so the test
reduces to nonemptiness). -/
def combine_nuts_names_with_code (r : Region) : String :=
  let combined := String.intercalate " - " (labelFragments r)
  if r.nuts_id ≠ "" then combined ++ " (" ++ r.nuts_id ++ ")"
  else combined

example : combine_nuts_names ⟨"EL301", some "Attica", some "Attica", some "Athens"⟩
    = "Attica - Athens" := by decide

example : combine_nuts_names ⟨"EL301", some "Attica", none, some "Attica"⟩
    = "Attica - nan" := by decide

example : combine_nuts_names_with_code ⟨"EL301", some "Attica", none, some "Attica"⟩
    = "Attica - nan (EL301)" := by decide

/-- A cell of the `VALUE` column as read from a spreadsheet: a number, a
string, or a missing value (`NaN`). -/
inductive Cell where
  | num (q : ℚ)
  | str (s : String)
  | nan
  deriving DecidableEq, Repr

/-- Whether a cell still holds a raw (non-numeric) string. -/
def Cell.isStr : Cell → Bool
  | .str _ => true
  | _ => false

/-- Decimal digits to a natural number, most significant first. -/
def digitsToNat : List Char → Nat → Nat
  | [], acc => acc
  | c :: cs, acc => digitsToNat cs (acc * 10 + (c.toNat - 48))

/-- Numeric parsing of a string cell, as performed inside
`pd.to_numeric`; a model of the library routine, restricted to the
unsigned decimal notation exercised here (anything else fails to parse). -/
def parseNumeric (s : String) : Option ℚ :=
  if s.data ≠ [] ∧ s.data.all Char.isDigit
  then some ((digitsToNat s.data 0 : Nat) : ℚ)
  else none

/-- `pd.to_numeric(cell, errors="coerce")` on a single cell: numbers pass
through, strings that parse become numbers, everything else becomes `NaN`. -/
def coerceCell : Cell → Cell
  | .num q => .num q
  | .nan => .nan
  | .str s =>
      match parseNumeric s with
      | some q => .num q
      | none => .nan

/-- One raw row of a spreadsheet file, before coercion of `VALUE`. -/
structure RawRow where
  nuts_id : String
  year : Int
  sex : String
  age : String
  value : Cell
  deriving DecidableEq, Repr

instance {ε α : Type} [DecidableEq ε] [DecidableEq α] :
    DecidableEq (Except ε α) := fun a b =>
  match a, b with
  | .ok x, .ok y =>
      if h : x = y then .isTrue (congrArg _ h)
      else .isFalse fun hc => h (Except.ok.inj hc)
  | .error x, .error y =>
      if h : x = y then .isTrue (congrArg _ h)
      else .isFalse fun hc => h (Except.error.inj hc)
  | .ok _, .error _ => .isFalse fun hc => Except.noConfusion hc
  | .error _, .ok _ => .isFalse fun hc => Except.noConfusion hc

/-- A file of the Excel folder: its name and what `pd.read_excel` does with
it (its parsed rows, or the exception message it raises). -/
structure XlsxFile where
  name : String
  contents : Except String (List RawRow)
  deriving DecidableEq, Repr

/-- `f.lower().endswith(".xlsx")`. -/
def isXlsx (f : XlsxFile) : Bool :=
  ".xlsx".data.isSuffixOf (f.name.data.map Char.toLower)

/-- The read loop of `load_all_excels` in `greek.population.map.py`: each
file is tried independently; a failure appends an f-string warning and the
loop continues.  Returns the parsed tables and the warnings issued. -/
def readAllGen : List XlsxFile → List (List RawRow) × List String
  | [] => ([], [])
  | f :: fs =>
      match f.contents with
      | .ok t =>
          let r := readAllGen fs
          (t :: r.1, r.2)
      | .error e =>
          let r := readAllGen fs
          (r.1, ("⚠️ Failed to read " ++ f.name ++ ": " ++ e) :: r.2)

/-- `load_all_excels` of `greek.population.map.py`: list the `.xlsx` files,
fail with `FileNotFoundError` when there are none, read each file (warning
on failure), fail with `ValueError` when none parsed, concatenate, and
coerce the `VALUE` column to numeric.  The result carries the combined rows
and the warnings issued.  (The required-column check of the source is a
schema condition on the concatenated frame; rows here are well-typed, so
every required column is present by construction.) -/
def load_all_excels_gen (folder : String) (files : List XlsxFile) :
    Except PyErr (List RawRow × List String) :=
  let xs := files.filter isXlsx
  if xs.isEmpty then
    .error (.fileNotFoundError ("No .xlsx files found in folder: " ++ folder))
  else
    let r := readAllGen xs
    if r.1.isEmpty then .error (.valueError "No valid Excel files were loaded.")
    else
      .ok ((r.1.flatten).map (fun row => { row with value := coerceCell row.value }),
        r.2)

/-- The read loop of `load_all_excels` in `Greek_Data_Maps.py`: identical,
except that the warning text is built by `tr(..., file=..., error=...)`,
whose evaluation can itself raise (the argument is evaluated before
`st.warning` is called). -/
def readAllGdm (lang : String) :
    List XlsxFile → Except PyErr (List (List RawRow) × List String)
  | [] => .ok ([], [])
  | f :: fs =>
      match f.contents with
      | .ok t => do
          let r ← readAllGdm lang fs
          .ok (t :: r.1, r.2)
      | .error e =>
          match tr lang "failed_read_excel" [("file", f.name), ("error", e)] with
          | .error pe => .error pe
          | .ok w => do
              let r ← readAllGdm lang fs
              .ok (r.1, w :: r.2)

/-- `load_all_excels` of `Greek_Data_Maps.py`: as the generic variant, but
every message is produced through `tr` with keyword arguments. -/
def load_all_excels_gdm (lang folder : String) (files : List XlsxFile) :
    Except PyErr (List RawRow × List String) :=
  let xs := files.filter isXlsx
  if xs.isEmpty then
    match tr lang "no_excel_files" [("folder_path", folder)] with
    | .error pe => .error pe
    | .ok msg => .error (.fileNotFoundError msg)
  else do
    let r ← readAllGdm lang xs
    if r.1.isEmpty then
      match tr lang "error_loading_excel"
          [("error", "No valid Excel files were loaded.")] with
      | .error pe => .error pe
      | .ok msg => .error (.valueError msg)
    else
      .ok ((r.1.flatten).map (fun row => { row with value := coerceCell row.value }),
        r.2)

/-- A shapefile row: the join key and the administrative level. -/
structure SRow where
  nuts_id : String
  levl_code : Int
  deriving DecidableEq, Repr

/-- The boundary dataset as read by `gpd.read_file`: a declared coordinate
reference system (`none` when the source declares none, otherwise its EPSG
id), the EPSG system the geometry coordinates are actually expressed in,
flags for the presence of the two required columns, and the rows. -/
structure GDF where
  crs : Option Nat
  geomEpsg : Nat
  hasLevlCode : Bool
  hasNutsId : Bool
  rows : List SRow
  deriving DecidableEq, Repr

/-- `gdf_all.to_crs(epsg=4326)`: the library reprojects every geometry into
EPSG 4326 and records that system on the frame. -/
def to_crs_4326 (g : GDF) : GDF :=
  { g with crs := some 4326, geomEpsg := 4326 }

/-- `load_shapefile` of `greek.population.map.py`, tracking the data needed
by the claims: the missing-column errors, the conditional reprojection
(`if gdf_all.crs and gdf_all.crs.to_epsg() != 4326`), and the NUTS3 filter.
Geometry simplification alters shapes only, never the coordinate system, so
it is not represented.  The result is the coordinate system of the output
geometries together with the NUTS3 rows. -/
def load_shapefile_gen (g : GDF) : Except PyErr (Nat × List SRow) :=
  if g.hasLevlCode = false then
    .error (.valueError "Shapefile missing LEVL_CODE column.")
  else
    let g1 :=
      match g.crs with
      | some c => if c ≠ 4326 then to_crs_4326 g else g
      | none => g
    let nuts3 := g1.rows.filter fun r => r.levl_code == 3
    if g.hasNutsId = false then
      .error (.valueError "NUTS3 shapefile missing NUTS_ID column.")
    else .ok (g1.geomEpsg, nuts3)

/-- `load_shapefile` of `Greek_Data_Maps.py`: same logic, but both error
messages are produced through `tr(..., error=...)`, evaluated before the
`ValueError` is raised. -/
def load_shapefile_gdm (lang : String) (g : GDF) :
    Except PyErr (Nat × List SRow) :=
  if g.hasLevlCode = false then
    match tr lang "error_loading_shapefile"
        [("error", "Shapefile missing LEVL_CODE column.")] with
    | .error pe => .error pe
    | .ok msg => .error (.valueError msg)
  else
    let g1 :=
      match g.crs with
      | some c => if c ≠ 4326 then to_crs_4326 g else g
      | none => g
    let nuts3 := g1.rows.filter fun r => r.levl_code == 3
    if g.hasNutsId = false then
      match tr lang "error_loading_shapefile"
          [("error", "NUTS3 shapefile missing NUTS_ID column.")] with
      | .error pe => .error pe
      | .ok msg => .error (.valueError msg)
    else .ok (g1.geomEpsg, nuts3)

/-- In-memory state of the `st.cache_data` memoization for one decorated
loader: the table of previously computed results keyed by input path, and a
counter of how many times the underlying source was actually read. -/
structure Session (α : Type) where
  cache : List (String × α)
  reads : Nat

/-- Cache table lookup by path. -/
def cacheFind {α : Type} : List (String × α) → String → Option α
  | [], _ => none
  | (k, v) :: t, p => if k = p then some v else cacheFind t p

/-- The region and observation lists of the end-to-end example of the spec
(Region `EL301`, one observation for year 2020, sex `T`, age `Y_LT5`,
value 1000). -/
def exampleRegions : List Region := [⟨"EL301", some "Attica", none, none⟩]

/-- The single observation of the end-to-end example. -/
def exampleObs : List Obs := [⟨"EL301", 2020, "T", "Y_LT5", some 1000⟩]

/-- Modelled from the spec: the `@st.cache_data` decorator applied to
`load_shapefile` and `load_all_excels` is Streamlit library code not in the
repository; per spec sections 4.1, 4.2 and 5, the decorated loader is
memoized by input path — a hit returns the previously computed result
without re-reading the source, a miss reads the source (`fs`), stores the
result, and counts one read. -/
def cachedCall {α : Type} (fs : String → α) (p : String) (s : Session α) :
    α × Session α :=
  match cacheFind s.cache p with
  | some r => (r, s)
  | none =>
      let r := fs p
      (r, ⟨(p, r) :: s.cache, s.reads + 1⟩)


/-!  Theorems settling the claims.  -/

/-- C1 (counterexample): with one region `"A"` and two filtered
observations both keyed `"A"`, the left join of the source
(`gdf_nuts3.merge(..., how="left")`) emits two rows, not one per region:
the output length differs from the region-sequence length. -/
theorem mergeLeft_dup_counterexample :
    (mergeLeft [⟨"A", none, none, none⟩]
        [⟨"A", 2020, "T", "Y_LT5", some 1⟩, ⟨"A", 2020, "T", "Y_LT5", some 2⟩]).length
      ≠ ([(⟨"A", none, none, none⟩ : Region)]).length := by decide

/-- C1 (amended): when every region code matches at most one filtered
observation — in particular for an empty filtered subset — the left join
produces exactly one row per region, in order: its length equals the
region-sequence length and the region column is the region sequence
itself, so every region appears exactly once. -/
theorem mergeLeft_unique_matches (regions : List Region) (obs : List Obs)
    (h : ∀ r ∈ regions,
      (obs.filter fun o => o.nuts_id == r.nuts_id).length ≤ 1) :
    (mergeLeft regions obs).length = regions.length ∧
    (mergeLeft regions obs).map JRec.region = regions := by
  induction regions with
  | nil => simp [mergeLeft]
  | cons r rs ih =>
    have hr := h r (List.mem_cons_self r rs)
    obtain ⟨ih1, ih2⟩ := ih fun x hx => h x (List.mem_cons_of_mem _ hx)
    have hblock : mergeLeft (r :: rs) obs =
        (match obs.filter (fun o => o.nuts_id == r.nuts_id) with
          | [] => [⟨r, none⟩]
          | ms => ms.map fun o => ⟨r, o.value⟩) ++ mergeLeft rs obs := by
      simp [mergeLeft]
    rcases hm : obs.filter (fun o => o.nuts_id == r.nuts_id) with _ | ⟨o, tl⟩
    · rw [hblock, hm]
      simp [ih1, ih2]
    · rcases tl with _ | ⟨o2, tl2⟩
      · rw [hblock, hm]
        simp [ih1, ih2]
      · rw [hm] at hr
        simp at hr

/-- C1 (witness): the amended join-cardinality theorem applied to two
regions and one matching observation. -/
theorem mergeLeft_unique_matches_witness :
    (mergeLeft [⟨"EL301", none, none, none⟩, ⟨"EL302", none, none, none⟩]
        [⟨"EL301", 2020, "T", "Y_LT5", some 1000⟩]).length = 2 ∧
    (mergeLeft [⟨"EL301", none, none, none⟩, ⟨"EL302", none, none, none⟩]
        [⟨"EL301", 2020, "T", "Y_LT5", some 1000⟩]).map JRec.region
      = [⟨"EL301", none, none, none⟩, ⟨"EL302", none, none, none⟩] :=
  mergeLeft_unique_matches _ _ (by decide)

/-- C2 (counterexample): on the end-to-end example (one region `EL301`, one
matching observation of value 1000), the derived range is produced by the
equal-min-max branch with epsilon `1/1000`, and does NOT contain the
interval `(1000 - 1/2, 1000 + 1/2)` promised by the claim's narrow-range
rule. -/
theorem pipeline_single_value_counterexample :
    ¬((pipelineRange exampleRegions exampleObs 2020 "T" "Y_LT5").1 ≤ 1000 - 1/2
      ∧ 1000 + 1/2 ≤ (pipelineRange exampleRegions exampleObs 2020 "T" "Y_LT5").2) := by
  have h : pipelineRange exampleRegions exampleObs 2020 "T" "Y_LT5"
      = (1000 - 1/1000, 1000 + 1/1000) := by
    norm_num [pipelineRange, valueRange, presentValues, mergeLeft, filterObs,
      pdMin, pdMax, exampleRegions, exampleObs, expandRange,
      List.filterMap_cons, List.filterMap_nil]
  rw [h]
  norm_num

/-- C2 (amended): on the end-to-end example, a single present value 1000
has equal min and max, so the constant-data rule applies and the derived
range is `(1000 - 1/1000, 1000 + 1/1000)` — the fixed epsilon, not the
half-width-`1/2` narrow-range expansion. -/
theorem pipeline_single_value_eps :
    pipelineRange exampleRegions exampleObs 2020 "T" "Y_LT5"
      = (1000 - 1/1000, 1000 + 1/1000) := by
  norm_num [pipelineRange, valueRange, presentValues, mergeLeft, filterObs,
    pdMin, pdMax, exampleRegions, exampleObs, expandRange,
    List.filterMap_cons, List.filterMap_nil]

/-- C3: whenever the present values of the joined records are nonempty with
equal minimum and maximum, the derived range is the symmetric expansion by
the fixed epsilon `1/1000`, and differs from the degenerate `(min, max)`. -/
theorem valueRange_const_expand (recs : List JRec)
    (hne : presentValues recs ≠ [])
    (heq : pdMin (presentValues recs) = pdMax (presentValues recs)) :
    valueRange recs
      = (pdMin (presentValues recs) - 1/1000,
         pdMax (presentValues recs) + 1/1000)
    ∧ valueRange recs
      ≠ (pdMin (presentValues recs), pdMax (presentValues recs)) := by
  have h1 : valueRange recs
      = (pdMin (presentValues recs) - 1/1000,
         pdMax (presentValues recs) + 1/1000) := by
    unfold valueRange expandRange
    rw [if_pos heq]
  refine ⟨h1, ?_⟩
  rw [h1]
  intro hc
  have := congrArg Prod.fst hc
  simp at this

/-- C3 (witness): the constant-data rule applied to the record set with
values 42, 42, 42. -/
theorem valueRange_const_expand_witness :
    valueRange [⟨⟨"EL301", none, none, none⟩, some 42⟩,
        ⟨⟨"EL302", none, none, none⟩, some 42⟩,
        ⟨⟨"EL303", none, none, none⟩, some 42⟩]
      = (pdMin (presentValues [⟨⟨"EL301", none, none, none⟩, some 42⟩,
          ⟨⟨"EL302", none, none, none⟩, some 42⟩,
          ⟨⟨"EL303", none, none, none⟩, some 42⟩]) - 1/1000,
         pdMax (presentValues [⟨⟨"EL301", none, none, none⟩, some 42⟩,
          ⟨⟨"EL302", none, none, none⟩, some 42⟩,
          ⟨⟨"EL303", none, none, none⟩, some 42⟩]) + 1/1000)
    ∧ valueRange [⟨⟨"EL301", none, none, none⟩, some 42⟩,
        ⟨⟨"EL302", none, none, none⟩, some 42⟩,
        ⟨⟨"EL303", none, none, none⟩, some 42⟩]
      ≠ (pdMin (presentValues [⟨⟨"EL301", none, none, none⟩, some 42⟩,
          ⟨⟨"EL302", none, none, none⟩, some 42⟩,
          ⟨⟨"EL303", none, none, none⟩, some 42⟩]),
         pdMax (presentValues [⟨⟨"EL301", none, none, none⟩, some 42⟩,
          ⟨⟨"EL302", none, none, none⟩, some 42⟩,
          ⟨⟨"EL303", none, none, none⟩, some 42⟩])) :=
  valueRange_const_expand _ (by simp [presentValues])
    (by norm_num [presentValues, pdMin, pdMax, List.filterMap_cons])

/-- C4: on any joined record set, (i) a nonzero spread below the `1/1000`
threshold yields the range re-centered at the midpoint with fixed width 1,
(ii) a spread of at least the threshold yields `(min, max)` unchanged, and
(iii) the derived width is never smaller than the spread — the derivation
never shrinks an informative range. -/
theorem valueRange_narrow_wide (recs : List JRec) :
    (0 < pdMax (presentValues recs) - pdMin (presentValues recs) →
      pdMax (presentValues recs) - pdMin (presentValues recs) < 1/1000 →
      valueRange recs
        = ((pdMin (presentValues recs) + pdMax (presentValues recs)) / 2 - 1/2,
           (pdMin (presentValues recs) + pdMax (presentValues recs)) / 2 + 1/2))
    ∧ (1/1000 ≤ pdMax (presentValues recs) - pdMin (presentValues recs) →
      valueRange recs
        = (pdMin (presentValues recs), pdMax (presentValues recs)))
    ∧ pdMax (presentValues recs) - pdMin (presentValues recs)
        ≤ (valueRange recs).2 - (valueRange recs).1 := by
  unfold valueRange expandRange
  split_ifs with h1 h2
  · refine ⟨fun hpos _ => ?_, fun hge => ?_, ?_⟩
    · rw [h1] at hpos
      simp at hpos
    · rw [h1] at hge
      simp at hge
      linarith
    · simp only []
      rw [h1]
      linarith
  · refine ⟨fun _ _ => rfl, fun hge => absurd h2 (not_lt.mpr hge), ?_⟩
    simp only []
    linarith
  · exact ⟨fun _ hlt => absurd hlt h2, fun _ => rfl, le_rfl⟩

/-- Joined records with spread `1/2000`, between zero and the threshold. -/
def recsNarrow : List JRec :=
  [⟨⟨"EL301", none, none, none⟩, some 0⟩,
   ⟨⟨"EL302", none, none, none⟩, some (1/2000)⟩]

/-- Joined records with spread 5, above the threshold. -/
def recsWide : List JRec :=
  [⟨⟨"EL301", none, none, none⟩, some 0⟩,
   ⟨⟨"EL302", none, none, none⟩, some 5⟩]

/-- C4 (witness): the narrow-range branch applied to spread `1/2000` and
the pass-through branch applied to spread 5. -/
theorem valueRange_narrow_wide_witness :
    valueRange recsNarrow
      = ((pdMin (presentValues recsNarrow) + pdMax (presentValues recsNarrow)) / 2 - 1/2,
         (pdMin (presentValues recsNarrow) + pdMax (presentValues recsNarrow)) / 2 + 1/2)
    ∧ valueRange recsWide
      = (pdMin (presentValues recsWide), pdMax (presentValues recsWide)) :=
  ⟨(valueRange_narrow_wide recsNarrow).1
      (by norm_num [recsNarrow, presentValues, pdMin, pdMax,
        List.filterMap_cons, min_def, max_def])
      (by norm_num [recsNarrow, presentValues, pdMin, pdMax,
        List.filterMap_cons, min_def, max_def]),
   (valueRange_narrow_wide recsWide).2.1
      (by norm_num [recsWide, presentValues, pdMin, pdMax,
        List.filterMap_cons, min_def, max_def])⟩

/-- C5 (code defect): on a region row whose middle name column is missing
(`NaN`), both label helpers keep the fragment as the literal string
`"nan"`: `str(nan)` is `"nan"`, which is truthy, and the `pd.notna` test is
applied after `str(...)` and so never removes anything — despite the
source's own comment "Remove blanks and NaNs".  A missing fragment is not
dropped; it surfaces in the label. -/
theorem combine_nuts_names_nan_bug :
    combine_nuts_names ⟨"EL301", some "Attica", none, some "Attica"⟩
      = "Attica - nan"
    ∧ combine_nuts_names_with_code ⟨"EL301", some "Attica", none, some "Attica"⟩
      = "Attica - nan (EL301)" := by decide

/-- C6 (code defect): in `Greek_Data_Maps.py`, a directory with one
readable and one unreadable spreadsheet does not produce a warning and a
combined result — building the warning text via
`tr("failed_read_excel", file=..., error=...)` raises `IndexError` (the
template's replacement fields are positional, but only keyword arguments
are passed), so the whole load fails. -/
theorem load_all_excels_gdm_warning_crash :
    load_all_excels_gdm "en" "output_nuts3_excels"
      [⟨"a.xlsx", .ok [⟨"EL301", 2020, "T", "Y_LT5", Cell.num 1000⟩]⟩,
       ⟨"b.xlsx", .error "corrupt file"⟩]
      = .error .indexError := by decide

/-- Coercion never leaves a raw string in a cell. -/
theorem coerceCell_not_str (c : Cell) : (coerceCell c).isStr = false := by
  cases c with
  | num q => rfl
  | nan => rfl
  | str s =>
      rcases hp : parseNumeric s with _ | q <;>
        simp [coerceCell, hp, Cell.isStr]

/-- C7: whenever `load_all_excels` (the `greek.population.map.py` variant)
returns a combined result, every row's `VALUE` cell is a number or the
absent marker `NaN` — never a raw string: `pd.to_numeric(...,
errors="coerce")` is applied to the whole column and turns unparseable
entries into `NaN` instead of raising. -/
theorem load_value_column_clean (folder : String) (files : List XlsxFile)
    (rows : List RawRow) (warns : List String)
    (h : load_all_excels_gen folder files = .ok (rows, warns)) :
    ∀ r ∈ rows, r.value.isStr = false := by
  simp only [load_all_excels_gen] at h
  split at h
  · cases h
  · split at h
    · cases h
    · injection h with h1
      intro r hr
      rw [← (Prod.mk.injEq _ _ _ _).mp h1 |>.1] at hr
      simp only [List.mem_map] at hr
      obtain ⟨r0, _, rfl⟩ := hr
      exact coerceCell_not_str r0.value

/-- C7 (witness): a file containing an unparseable string value loads into
a row whose value cell is `NaN`, not a string. -/
theorem load_value_column_clean_witness :
    (RawRow.mk "EL301" 2020 "T" "Y_LT5" Cell.nan).value.isStr = false :=
  load_value_column_clean "output_nuts3_excels"
    [⟨"a.xlsx", .ok [⟨"EL301", 2020, "T", "Y_LT5", Cell.str "not a number"⟩]⟩]
    [⟨"EL301", 2020, "T", "Y_LT5", Cell.nan⟩] [] (by decide)
    ⟨"EL301", 2020, "T", "Y_LT5", Cell.nan⟩ (by decide)

/-- C8 (counterexample): a boundary input with both required columns and a
NUTS3 row, but no declared coordinate reference system, whose coordinates
are actually in EPSG 3035: the loader skips reprojection
(`if gdf_all.crs and ...` is falsy), so the output geometries stay in
EPSG 3035, not the fixed geographic system 4326. -/
theorem load_shapefile_undeclared_crs_counterexample :
    load_shapefile_gen ⟨none, 3035, true, true, [⟨"EL301", 3⟩]⟩
      = .ok (3035, [⟨"EL301", 3⟩])
    ∧ (3035 : Nat) ≠ 4326 := by decide

/-- C8 (amended): (i) a declared coordinate system other than 4326 makes
the loader reproject, so the output is in 4326; (ii) with no declared
coordinate system reprojection is skipped and the output keeps the source's
original coordinates; (iii) for every input whose declared coordinate
system correctly describes its coordinates, the output is in 4326 — the
universal claim holds only for inputs that declare a coordinate system. -/
theorem load_shapefile_crs_amended (g : GDF) :
    (∀ c, g.crs = some c → c ≠ 4326 →
      ∀ out, load_shapefile_gen g = .ok out → out.1 = 4326)
    ∧ (g.crs = none →
      ∀ out, load_shapefile_gen g = .ok out → out.1 = g.geomEpsg)
    ∧ (∀ c, g.crs = some c → g.geomEpsg = c →
      ∀ out, load_shapefile_gen g = .ok out → out.1 = 4326) := by
  refine ⟨?_, ?_, ?_⟩
  · intro c hc hne out h
    simp only [load_shapefile_gen, hc, if_neg, hne, if_true] at h
    split at h
    · cases h
    · split at h
      · cases h
      · injection h with h1
        rw [← h1]
        rfl
  · intro hc out h
    simp only [load_shapefile_gen, hc] at h
    split at h
    · cases h
    · split at h
      · cases h
      · injection h with h1
        rw [← h1]
  · intro c hc hacc out h
    by_cases hne : c = 4326
    · simp only [load_shapefile_gen, hc, hne, ne_eq, not_true_eq_false,
        if_false] at h
      split at h
      · cases h
      · split at h
        · cases h
        · injection h with h1
          rw [← h1]
          simp [hacc, hne]
    · simp only [load_shapefile_gen, hc, if_neg, hne, if_true] at h
      split at h
      · cases h
      · split at h
        · cases h
        · injection h with h1
          rw [← h1]
          rfl

/-- C8 (witness): the amended theorem applied to a source declared in
EPSG 3035 (reprojected to 4326) and to a source with no declared system
(left in its original EPSG 3035 coordinates). -/
theorem load_shapefile_crs_amended_witness :
    ((4326, [SRow.mk "EL301" 3]) : Nat × List SRow).1 = 4326
    ∧ ((3035, [SRow.mk "EL301" 3]) : Nat × List SRow).1
        = (GDF.mk none 3035 true true [⟨"EL301", 3⟩]).geomEpsg :=
  ⟨(load_shapefile_crs_amended ⟨some 3035, 3035, true, true, [⟨"EL301", 3⟩]⟩).1
      3035 rfl (by decide) (4326, [⟨"EL301", 3⟩]) (by decide),
   (load_shapefile_crs_amended ⟨none, 3035, true, true, [⟨"EL301", 3⟩]⟩).2.1
      rfl (3035, [⟨"EL301", 3⟩]) (by decide)⟩

/-- C9: calling a memoized loader twice with the same path returns the
same result the second time and performs no additional source read — the
first call either hits the cache (leaving it unchanged) or stores its
result under the path, and the second call hits that entry. -/
theorem cachedCall_idempotent {α : Type} (fs : String → α) (p : String)
    (s : Session α) :
    (cachedCall fs p (cachedCall fs p s).2).1 = (cachedCall fs p s).1
    ∧ (cachedCall fs p (cachedCall fs p s).2).2.reads
        = (cachedCall fs p s).2.reads := by
  unfold cachedCall
  rcases hc : cacheFind s.cache p with _ | r
  · simp [hc, cacheFind]
  · simp [hc]

/-- `tr` on the per-file warning template with any (nonempty) keyword
arguments raises `IndexError`: the template's replacement fields are
positional and no positional arguments are passed. -/
theorem tr_failed_read_err (lang : String) (hl : lang = "en" ∨ lang = "el")
    (kw : List (String × String)) (hk : kw ≠ []) :
    tr lang "failed_read_excel" kw = .error .indexError := by
  rcases hl with rfl | rfl <;>
    (rcases kw with _ | ⟨a, l⟩
     · exact absurd rfl hk
     · rfl)

/-- Any unreadable file among the listed spreadsheets makes the read loop
of `Greek_Data_Maps.py` abort with `IndexError` while constructing its
warning text. -/
theorem readAllGdm_err (xs : List XlsxFile) (f : XlsxFile) (hf : f ∈ xs)
    (he : ∃ m, f.contents = .error m) :
    readAllGdm "en" xs = .error .indexError := by
  obtain ⟨m, hm⟩ := he
  induction xs with
  | nil => cases hf
  | cons g gs ih =>
    rcases List.mem_cons.mp hf with rfl | hmem
    · unfold readAllGdm
      rw [hm]
      rfl
    · unfold readAllGdm
      rcases hg : g.contents with e | t
      · rfl
      · rw [ih hmem]
        rfl

/-- C10: in `Greek_Data_Maps.py` every error or warning branch of
`load_shapefile` and `load_all_excels` builds its message via `tr` with
keyword arguments against a template whose replacement fields are
positional, so `str.format` raises `IndexError` before the intended
exception or warning: (i) a missing level column fails with `IndexError`
instead of `ValueError`; (ii) an empty directory fails with `IndexError`
instead of `FileNotFoundError`; (iii) any unreadable file fails the whole
load with `IndexError` instead of producing a non-fatal warning. -/
theorem tr_positional_format_bug :
    (∀ g : GDF, g.hasLevlCode = false →
        load_shapefile_gdm "en" g = .error .indexError)
    ∧ (∀ (folder : String) (files : List XlsxFile),
        files.filter isXlsx = [] →
        load_all_excels_gdm "en" folder files = .error .indexError)
    ∧ (∀ (folder : String) (files : List XlsxFile) (f : XlsxFile),
        f ∈ files.filter isXlsx → (∃ m, f.contents = .error m) →
        load_all_excels_gdm "en" folder files = .error .indexError) := by
  refine ⟨?_, ?_, ?_⟩
  · intro g hg
    unfold load_shapefile_gdm
    rw [if_pos hg]
    rfl
  · intro folder files hf
    unfold load_all_excels_gdm
    rw [hf]
    rfl
  · intro folder files f hf he
    have hxs : (files.filter isXlsx).isEmpty = false := by
      rcases hx : files.filter isXlsx with _ | ⟨a, t⟩
      · rw [hx] at hf
        cases hf
      · rfl
    unfold load_all_excels_gdm
    rw [if_neg (by simp [hxs]), readAllGdm_err (files.filter isXlsx) f hf he]
    rfl

/-- C10 (witness): the three branches at concrete inputs — a shapefile
missing its level column, an empty spreadsheet folder, and a folder with a
single unreadable spreadsheet. -/
theorem tr_positional_format_bug_witness :
    load_shapefile_gdm "en" ⟨some 3035, 3035, false, true, []⟩
      = .error .indexError
    ∧ load_all_excels_gdm "en" "output_nuts3_excels" []
      = .error .indexError
    ∧ load_all_excels_gdm "en" "output_nuts3_excels"
        [⟨"b.xlsx", .error "corrupt file"⟩]
      = .error .indexError :=
  ⟨tr_positional_format_bug.1 _ rfl,
   tr_positional_format_bug.2.1 _ _ rfl,
   tr_positional_format_bug.2.2 _ _ ⟨"b.xlsx", .error "corrupt file"⟩
     (by decide) ⟨"corrupt file", rfl⟩⟩
